import Mathlib

/-!
Verification of the client-side encryption layer of SecureBeacon-FE.

The definitions below are a shallow embedding of
`src/contexts/EncryptionContext.tsx` (the EncryptionProvider: rate limiting,
unlock/setup/lock state machine, record codec, status cache).  The crypto and
vault primitives imported from `@/utils/crypto` and `@/utils/indexedDB` are not
part of the provided sources; they are modelled from the spec (sections 4.1 and
4.3) and are marked as such.  JavaScript truthiness on strings and numbers is
made explicit (`jsOrNat`, `strFalsy`, `jsStrOrNull`); timestamps are Nat
milliseconds; React `useState` updates inside one call of a `useCallback`
closure are modelled functionally: reads inside the call see the captured
(input) state, and the value committed at the end of the call is the last
update made on each path.
-/

namespace SecureBeacon

/-- Rate limiting configuration, `EncryptionContext.tsx` line 20. -/
def MAX_UNLOCK_ATTEMPTS : Nat := 5

/-- Lockout duration in milliseconds, line 21 (5 minutes). -/
def LOCKOUT_DURATION_MS : Nat := 5 * 60 * 1000

/-- JavaScript `x || d` on an optional number: `undefined` and `0` are falsy. -/
def jsOrNat (x : Option Nat) (d : Nat) : Nat :=
  match x with
  | none => d
  | some n => if n = 0 then d else n

/-- JavaScript `s || null` on an optional string: `undefined` and `""` are falsy. -/
def jsStrOrNull : Option String → Option String
  | none => none
  | some s => if s = "" then none else some s

/-- JavaScript truthiness test `!x` for an optional string. -/
def strFalsy : Option String → Bool
  | none => true
  | some s => s = ""

/-- Does `pat` match at the front of `s`?  Helper for the substring test. -/
def charsMatchAt : List Char → List Char → Bool
  | [], _ => true
  | _ :: _, [] => false
  | a :: as, b :: bs => a == b && charsMatchAt as bs

/-- Does `pat` occur anywhere in `s`?  Helper for the substring test. -/
def charsHaveSub (pat : List Char) : List Char → Bool
  | [] => pat.isEmpty
  | c :: cs => charsMatchAt pat (c :: cs) || charsHaveSub pat cs

/-- JavaScript `s.includes(pat)`. -/
def strIncludes (s pat : String) : Bool :=
  charsHaveSub pat.toList s.toList

/-! ## Crypto primitives

Modelled from the spec: `src/utils/crypto.ts` is not among the provided
sources.  Section 4.1 of the spec describes `deriveKey` as a deterministic
function of (passphrase, salt) and `authEncrypt`/`authDecrypt` as AEAD that
fails exactly when the key does not match.  Keys are modelled symbolically as
the pair of their derivation inputs, and a ciphertext as the triple
(nonce, key, plaintext) with decryption succeeding exactly on the matching
key. -/

/-- Modelled from the spec: a MasterKey is determined by (passphrase, salt);
§8 states that a key derived from a different passphrase fails to decrypt, so
distinct inputs are modelled as distinct keys. -/
structure MasterKey where
  passphrase : String
  salt : String
deriving DecidableEq, Repr

/-- Modelled from the spec: `deriveKey(passphrase, salt) -> MasterKey`,
deterministic (§4.1). -/
def deriveKey (passphrase : String) (salt : String) : MasterKey :=
  ⟨passphrase, salt⟩

/-- Modelled from the spec: an AEAD ciphertext `(nonce, ciphertext)` produced
under `key` from `plain` (§4.1). -/
structure Enc (α : Type) where
  nonce : Nat
  key : MasterKey
  plain : α
deriving DecidableEq, Repr

/-- Modelled from the spec: `authEncrypt(plaintext, key) -> (nonce, ciphertext)`
(§4.1); the nonce source is passed explicitly. -/
def authEncrypt {α : Type} (plaintext : α) (key : MasterKey) (nonce : Nat) : Enc α :=
  ⟨nonce, key, plaintext⟩

/-- Modelled from the spec: `authDecrypt` fails with `DecryptionError` exactly
when the authentication tag does not verify, i.e. when the key differs (§4.1). -/
def authDecrypt {α : Type} (e : Enc α) (key : MasterKey) : Except Unit α :=
  if e.key = key then .ok e.plain else .error ()

/-- Clear form of `mlResult` (types file, interface `Analysis`); the float
probability is modelled as a rational, no arithmetic is performed on it. -/
structure MLResult where
  is_phishing : Bool
  phishing_probability : Rat
deriving DecidableEq

/-- The four sensitive fields of an analysis in clear form, as passed to
`encryptAnalysisData` (EncryptionContext.tsx lines 684-690). -/
structure SensitivePlain where
  userEmail : String
  inputContent : String
  analysisContext : Option String
  mlResult : MLResult
deriving DecidableEq

/-- The four sensitive fields in encrypted form, as passed to
`decryptAnalysisData` (lines 499-504 and 708-713). -/
structure SensitiveEnc where
  userEmail : Enc String
  inputContent : Enc String
  analysisContext : Option (Enc String)
  mlResult : Enc MLResult
deriving DecidableEq

/-- Modelled from the spec: `encryptFields` encrypts exactly the sensitive
fields, each as an independent (nonce, ciphertext) pair (§3, §4.6); the missing
`src/utils/crypto.ts` exports this as `encryptAnalysisData`. -/
def encryptAnalysisData (d : SensitivePlain) (key : MasterKey) (nonce : Nat) : SensitiveEnc :=
  { userEmail := authEncrypt d.userEmail key nonce
  , inputContent := authEncrypt d.inputContent key (nonce + 1)
  , analysisContext := d.analysisContext.map (fun c => authEncrypt c key (nonce + 2))
  , mlResult := authEncrypt d.mlResult key (nonce + 3) }

/-- Modelled from the spec: `decryptFields` decrypts every sensitive field and
fails if AEAD fails on any field (§4.6); the missing `src/utils/crypto.ts`
exports this as `decryptAnalysisData`. -/
def decryptAnalysisData (e : SensitiveEnc) (key : MasterKey) : Except Unit SensitivePlain := do
  let ue ← authDecrypt e.userEmail key
  let ic ← authDecrypt e.inputContent key
  let ac ← match e.analysisContext with
    | none => pure none
    | some c => do
        let p ← authDecrypt c key
        pure (some p)
  let ml ← authDecrypt e.mlResult key
  pure ⟨ue, ic, ac, ml⟩

/-- Payload of the key-verification blob: the code stores the JSON
`{timestamp, userSub}` (lines 403-406); only `userSub` is ever inspected on
unlock, so the timestamp is omitted from the model. -/
structure KeyMaterialPayload where
  userSub : String
deriving DecidableEq

/-- Modelled from the spec: `encryptKeyMaterial(verificationData, key)` from
the missing `src/utils/crypto.ts`, an AEAD encryption of the verification
payload (§3, KeyVerificationBlob). -/
def encryptKeyMaterial (p : KeyMaterialPayload) (key : MasterKey) (nonce : Nat) :
    Enc KeyMaterialPayload :=
  authEncrypt p key nonce

/-- Modelled from the spec: `decryptKeyMaterial` from the missing
`src/utils/crypto.ts`; AEAD decryption of the verification blob. -/
def decryptKeyMaterial (e : Enc KeyMaterialPayload) (key : MasterKey) :
    Except Unit KeyMaterialPayload :=
  authDecrypt e key

/-! ## Record types (from the types file, interfaces `Analysis` and
`EncryptedAnalysis`) -/

/-- Clear analysis record (interface `Analysis`). -/
structure Analysis where
  id : String
  userSub : String
  userEmail : String
  inputType : String
  inputContent : String
  analysisContext : Option String
  mlResult : MLResult
  createdAt : String
  updatedAt : String
deriving DecidableEq

/-- Encrypted analysis record as stored in the backend (interface
`EncryptedAnalysis`): sensitive fields encrypted, clear fields in clear form. -/
structure EncryptedAnalysis where
  id : String
  userSub : String
  userEmail : Enc String
  inputType : String
  inputContent : Enc String
  analysisContext : Option (Enc String)
  mlResult : Enc MLResult
  createdAt : String
  updatedAt : String
deriving DecidableEq

/-- The four sensitive fields extracted from an encrypted record, mirroring the
object literals at lines 499-504 and 708-713. -/
def sensitiveOf (r : EncryptedAnalysis) : SensitiveEnc :=
  ⟨r.userEmail, r.inputContent, r.analysisContext, r.mlResult⟩

/-! ## Rate limit state and the provider load effect -/

/-- In-memory rate limit state (lines 23-26). -/
structure RateLimitState where
  attempts : Nat
  lockedUntil : Option Nat
deriving DecidableEq

/-- Shape of the JSON stored under `lockout_<userSub>`: the lockout write at
lines 576-582 stores `{lockedUntil, timestamp}` with no `attempts` field, the
warning write at lines 617-624 stores `{attempts, lockedUntil: null,
timestamp}`; both fields are therefore optional.  The `timestamp` field is
never read and is omitted. -/
structure LockoutJson where
  attempts : Option Nat
  lockedUntil : Option Nat
deriving DecidableEq

/-- The rate-limit load effect of the provider (lines 88-129): reads the stored
lockout JSON, treats an expired lockout as clear, and persists the cleared
state when the stored lockout has expired.  Returns (new in-memory state, new
stored value). -/
def loadRateLimit (stored : Option LockoutJson) (now : Nat) :
    RateLimitState × Option LockoutJson :=
  match stored with
  | none => (⟨0, none⟩, none)
  | some data =>
    match data.lockedUntil with
    | some t =>
      if now < t then
        (⟨jsOrNat data.attempts MAX_UNLOCK_ATTEMPTS, some t⟩, stored)
      else
        (⟨jsOrNat data.attempts 0, none⟩, some ⟨some (jsOrNat data.attempts 0), none⟩)
    | none => (⟨jsOrNat data.attempts 0, none⟩, stored)

/-! ## Session state and the unlock state machine -/

/-- The provider state relevant to the claims: rate limit state, the stored
lockout JSON, the local vault content for the current user, the cached salt,
the in-memory key and the two status flags. -/
structure SessionState where
  rl : RateLimitState
  storedLockout : Option LockoutJson
  vault : Option (Enc KeyMaterialPayload)
  userSalt : Option String
  encryptionKey : Option MasterKey
  isUnlocked : Bool
  isSetup : Bool
deriving DecidableEq

/-- Outcome of the `GET /analyses?limit=1` call during new-device unlock:
either the transport throws, or the response is not ok, or it delivers items. -/
inductive FetchOutcome where
  | netError
  | httpError
  | ok
deriving DecidableEq

/-- Environment of one unlock attempt: the clock, the salt the backend would
return, the fetch outcome, the backend record store, and the nonce source. -/
structure UnlockEnv where
  now : Nat
  remoteSalt : Option String
  fetch : FetchOutcome
  remoteAnalyses : List EncryptedAnalysis
  nonce : Nat

/-- The items delivered by `GET /analyses?limit=1` (line 485): at most one
record of the backend store. -/
def fetchedItems (env : UnlockEnv) : List EncryptedAnalysis :=
  env.remoteAnalyses.take 1

/-- Errors thrown inside the verification try block (lines 447-536), after the
remote-branch catch has run. -/
inductive InnerErr where
  | saltNotFound
  | invalidPassphrase
  | failedToVerify
deriving DecidableEq

/-- Errors raised inside the remote verification branch before its catch at
lines 530-535. -/
inductive RemoteVerifyErr where
  | cannotVerify
  | fetchNotOk
  | netError
  | invalidPassphrase
deriving DecidableEq

/-- The literal message of each error raised in the remote verification branch
(lines 517, 522-525, 528); a transport failure carries the browser message of
a failed fetch, which does not mention an invalid passphrase. -/
def remoteVerifyErrMsg : RemoteVerifyErr → String
  | .cannotVerify =>
      "Cannot verify passphrase: no encrypted data found. Please create an analysis first, or wait for backup code support."
  | .fetchNotOk => "Failed to fetch encrypted data for verification"
  | .netError => "Failed to fetch"
  | .invalidPassphrase => "Invalid passphrase. Please try again."

/-- The catch at lines 530-535: rethrow only when the message includes the text
of the invalid passphrase error, otherwise replace the error with the generic
verification failure. -/
def remoteCatch (e : RemoteVerifyErr) : InnerErr :=
  if strIncludes (remoteVerifyErrMsg e) "Invalid passphrase" then
    .invalidPassphrase
  else
    .failedToVerify

/-- Local verification branch (lines 466-478): decrypt the stored blob, parse
it and require a matching non-empty `userSub`; any failure in the inner try is
caught and rethrown as the invalid passphrase error. -/
def localVerify (uid : String) (blob : Enc KeyMaterialPayload) (key : MasterKey) :
    Except InnerErr Unit :=
  match decryptKeyMaterial blob key with
  | .error _ => .error .invalidPassphrase
  | .ok payload =>
    if payload.userSub = "" ∨ payload.userSub ≠ uid then .error .invalidPassphrase
    else .ok ()

/-- Remote verification branch (lines 483-529, before the catch): fetch at most
one record; no records is the cannot-verify case; otherwise decrypt all
sensitive fields of the first record, and on success build the new
key-verification blob that is stored for future unlocks. -/
def remoteVerify (uid : String) (key : MasterKey) (env : UnlockEnv) :
    Except RemoteVerifyErr (Enc KeyMaterialPayload) :=
  match env.fetch with
  | .netError => .error .netError
  | .httpError => .error .fetchNotOk
  | .ok =>
    match fetchedItems env with
    | [] => .error .cannotVerify
    | r :: _ =>
      match decryptAnalysisData (sensitiveOf r) key with
      | .error _ => .error .invalidPassphrase
      | .ok _ => .ok (encryptKeyMaterial ⟨uid⟩ key env.nonce)

/-- Salt resolution (lines 449-455): the in-memory salt, else the backend salt,
with the JavaScript falsiness checks on both reads. -/
def resolveSalt (st : SessionState) (env : UnlockEnv) : Option String :=
  let fromMemory := match st.userSalt with
    | some s => if s = "" then env.remoteSalt else some s
    | none => env.remoteSalt
  match fromMemory with
  | none => none
  | some s => if s = "" then none else some s

/-- Error surfaced by `unlockEncryption` to its caller. -/
inductive UnlockError where
  | notAuthenticated
  | lockedOut (remainingSeconds : Nat)
  | lockedNow (attempts : Nat)
  | attemptFailed (inner : InnerErr) (remaining : Nat)
deriving DecidableEq

/-- Full outcome of one call of `unlockEncryption`: the result, the committed
session state, and whether key derivation and the analyses fetch were invoked
during the call. -/
structure UnlockOutcome where
  result : Except UnlockError Unit
  state : SessionState
  didDerive : Bool
  didFetch : Bool

/-- Success path of unlock (lines 538-565): store the key, mark set up and
unlocked, reset the rate limit and remove the stored lockout JSON. -/
def unlockSuccess (st : SessionState) (key : MasterKey) (saltBase64 : String)
    (vault : Option (Enc KeyMaterialPayload)) (didFetch : Bool) : UnlockOutcome :=
  { result := .ok ()
  , state := { st with
      encryptionKey := some key
      userSalt := some saltBase64
      isSetup := true
      isUnlocked := true
      vault := vault
      rl := ⟨0, none⟩
      storedLockout := none }
  , didDerive := true
  , didFetch := didFetch }

/-- Failure accounting in the catch block (lines 566-648).  `newAttempts` is
computed from the state captured by the closure — the `rateLimitState` the
call was rendered with — not from any update scheduled earlier in the same
call.  Reaching `MAX_UNLOCK_ATTEMPTS` sets the lockout and persists a JSON
without an `attempts` field (lines 576-582); below the limit the count is
persisted and the error message carries the remaining attempts computed here. -/
def unlockFail (now : Nat) (st : SessionState) (e : InnerErr)
    (didDerive didFetch : Bool) : UnlockOutcome :=
  if MAX_UNLOCK_ATTEMPTS ≤ st.rl.attempts + 1 then
    { result := .error (.lockedNow (st.rl.attempts + 1))
    , state := { st with
        rl := ⟨st.rl.attempts + 1, some (now + LOCKOUT_DURATION_MS)⟩
        storedLockout := some ⟨none, some (now + LOCKOUT_DURATION_MS)⟩ }
    , didDerive := didDerive
    , didFetch := didFetch }
  else
    { result := .error (.attemptFailed e (MAX_UNLOCK_ATTEMPTS - (st.rl.attempts + 1)))
    , state := { st with
        rl := ⟨st.rl.attempts + 1, none⟩
        storedLockout := some ⟨some (st.rl.attempts + 1), none⟩ }
    , didDerive := didDerive
    , didFetch := didFetch }

/-- Body of the unlock try block (lines 446-652): resolve the salt, derive the
candidate key, verify against the local blob when one exists and otherwise
against the backend, then commit success or run the failure accounting.  The
expired-lockout reset scheduled at lines 442-444 updates the React state, but
every path of this call ends in a later state update (success reset or failure
accounting), so that scheduled value is never the committed one, and the
failure accounting reads the captured `st.rl`. -/
def unlockBody (uid : String) (passphrase : String) (st : SessionState)
    (env : UnlockEnv) : UnlockOutcome :=
  match resolveSalt st env with
  | none => unlockFail env.now st .saltNotFound false false
  | some saltBase64 =>
    let key := deriveKey passphrase saltBase64
    match st.vault with
    | some blob =>
      match localVerify uid blob key with
      | .ok _ => unlockSuccess st key saltBase64 st.vault false
      | .error e => unlockFail env.now st e true false
    | none =>
      match remoteVerify uid key env with
      | .ok newBlob => unlockSuccess st key saltBase64 (some newBlob) true
      | .error re => unlockFail env.now st (remoteCatch re) true true

/-- `unlockEncryption` (lines 428-652): reject an unauthenticated call, then
check the lockout before anything else — a locked-out attempt throws with the
remaining seconds, consumes no attempt, derives no key — and otherwise run the
body. -/
def unlockEncryption (userSub : Option String) (passphrase : String)
    (st : SessionState) (env : UnlockEnv) : UnlockOutcome :=
  match userSub with
  | none => ⟨.error .notAuthenticated, st, false, false⟩
  | some uid =>
    match st.rl.lockedUntil with
    | some t =>
      if env.now < t then
        ⟨.error (.lockedOut ((t - env.now + 999) / 1000)), st, false, false⟩
      else
        unlockBody uid passphrase st env
    | none => unlockBody uid passphrase st env

/-! ## Lock -/

/-- `lockEncryption` (lines 654-671): clear the in-memory key, mark locked,
clear the local vault for the current user; the cached salt and the setup flag
are not touched. -/
def lockEncryption (userSub : Option String) (st : SessionState) : SessionState :=
  let st2 := { st with encryptionKey := none, isUnlocked := false }
  match userSub with
  | some _ => { st2 with vault := none }
  | none => st2

/-! ## Setup -/

/-- Observable effects of setup, in order of occurrence. -/
inductive SetupEffect where
  | vaultPut
  | remoteSaltSave
deriving DecidableEq

/-- Error surfaced by `setupEncryption`. -/
inductive SetupError where
  | notAuthenticated
  | saltSaveFailed
deriving DecidableEq

/-- Full outcome of one call of `setupEncryption`: result, committed session
state, the backend salt afterwards, and the ordered effect trace. -/
structure SetupOutcome where
  result : Except SetupError Unit
  state : SessionState
  backendSalt : Option String
  effects : List SetupEffect

/-- `setupEncryption` (lines 389-426): generate a salt, derive the key, build
the verification blob, store it in the vault (line 410), then save the salt to
the backend (line 413); only then commit key, salt and flags.  When the salt
save fails the error propagates, the flags and key are untouched, and the
vault write is not rolled back.  The generated salt and the nonce source are
explicit inputs; `saveSaltOk` is the backend response. -/
def setupEncryption (userSub : Option String) (passphrase : String)
    (st : SessionState) (salt : String) (nonce : Nat) (saveSaltOk : Bool)
    (backendSalt : Option String) : SetupOutcome :=
  match userSub with
  | none => ⟨.error .notAuthenticated, st, backendSalt, []⟩
  | some uid =>
    let key := deriveKey passphrase salt
    let blob := encryptKeyMaterial ⟨uid⟩ key nonce
    let st1 := { st with vault := some blob }
    if saveSaltOk then
      ⟨.ok ()
      , { st1 with
          encryptionKey := some key
          userSalt := some salt
          isSetup := true
          isUnlocked := true }
      , some salt
      , [.vaultPut, .remoteSaltSave]⟩
    else
      ⟨.error .saltSaveFailed, st1, backendSalt, [.vaultPut, .remoteSaltSave]⟩

/-! ## Record codec entry points -/

/-- `Partial<Analysis>` as passed to `encryptData`: every field optional. -/
structure PartialAnalysis where
  id : Option String
  userSub : Option String
  userEmail : Option String
  inputType : Option String
  inputContent : Option String
  analysisContext : Option String
  mlResult : Option MLResult
  createdAt : Option String
  updatedAt : Option String
deriving DecidableEq

/-- Result of `encryptData`: the spread `{...data, ...encrypted}` keeps the
clear fields of the input and replaces the four sensitive fields with their
encrypted forms (lines 694-697). -/
structure PartialEncryptedAnalysis where
  id : Option String
  userSub : Option String
  userEmail : Enc String
  inputType : Option String
  inputContent : Enc String
  analysisContext : Option (Enc String)
  mlResult : Enc MLResult
  createdAt : Option String
  updatedAt : Option String
deriving DecidableEq

/-- Error surfaced by `encryptData`. -/
inductive EncryptErr where
  | notUnlocked
  | missingFields
deriving DecidableEq

/-- `encryptData` (lines 673-698): require an in-memory key, require the three
fields `userEmail`, `inputContent`, `mlResult` to be truthy (line 680: absent
or, for the strings, empty fails), then encrypt the four sensitive fields and
spread them over the input. -/
def encryptData (encryptionKey : Option MasterKey) (data : PartialAnalysis)
    (nonce : Nat) : Except EncryptErr PartialEncryptedAnalysis :=
  match encryptionKey with
  | none => .error .notUnlocked
  | some key =>
    if strFalsy data.userEmail || strFalsy data.inputContent || data.mlResult = none then
      .error .missingFields
    else
      match data.userEmail, data.inputContent, data.mlResult with
      | some ue, some ic, some ml =>
        let enc := encryptAnalysisData ⟨ue, ic, data.analysisContext, ml⟩ key nonce
        .ok ⟨data.id, data.userSub, enc.userEmail, data.inputType, enc.inputContent,
             enc.analysisContext, enc.mlResult, data.createdAt, data.updatedAt⟩
      | _, _, _ => .error .missingFields

/-- Error surfaced by `decryptData`. -/
inductive DecryptErr where
  | notUnlocked
  | decryptionFailed
deriving DecidableEq

/-- `decryptData` (lines 700-725): require an in-memory key, decrypt the four
sensitive fields, and pass `id`, `userSub`, `inputType`, `createdAt`,
`updatedAt` through unchanged. -/
def decryptData (encryptionKey : Option MasterKey) (encrypted : EncryptedAnalysis) :
    Except DecryptErr Analysis :=
  match encryptionKey with
  | none => .error .notUnlocked
  | some key =>
    match decryptAnalysisData (sensitiveOf encrypted) key with
    | .error _ => .error .decryptionFailed
    | .ok d =>
      .ok ⟨encrypted.id, encrypted.userSub, d.userEmail, encrypted.inputType,
           d.inputContent, d.analysisContext, d.mlResult,
           encrypted.createdAt, encrypted.updatedAt⟩

/-- A full `EncryptedAnalysis` built from an encryption result whose clear
fields are all present; used to feed `encryptData` output into `decryptData`. -/
def toFullEncrypted (e : PartialEncryptedAnalysis) : Option EncryptedAnalysis :=
  match e.id, e.userSub, e.inputType, e.createdAt, e.updatedAt with
  | some i, some u, some ty, some ca, some ua =>
    some ⟨i, u, e.userEmail, ty, e.inputContent, e.analysisContext, e.mlResult, ca, ua⟩
  | _, _, _, _, _ => none

/-! ## Encryption status cache -/

/-- Payload of `GET /encryption/status` and of the cached entry. -/
structure StatusData where
  hasSalt : Bool
  hasAnalyses : Bool
  salt : Option String
deriving DecidableEq

/-- Cached status entry under `encryption_status_<userSub>`: data plus the
write timestamp (lines 227-230). -/
structure StatusCacheEntry where
  data : StatusData
  timestamp : Nat
deriving DecidableEq

/-- Outcome of the status API call: a parsed ok response, a response that is
not ok, or a thrown transport or token failure. -/
inductive StatusApi where
  | ok (d : StatusData)
  | httpError
  | netError
deriving DecidableEq

/-- Cache freshness window (line 204): 5 minutes. -/
def STATUS_CACHE_TTL_MS : Nat := 5 * 60 * 1000

/-- Full outcome of one call of `getEncryptionStatus`: the returned data, the
cache afterwards, and whether the remote call was made. -/
structure StatusOutcome where
  result : StatusData
  cache : Option StatusCacheEntry
  calledApi : Bool
deriving DecidableEq

/-- The remote leg of `getEncryptionStatus` (lines 213-253): an ok response is
normalized, cached raw and returned; a thrown failure falls back to the cached
data when a cache entry exists; a response that is not ok falls through to the
all-false default without touching the cache. -/
def callStatusApi (cache : Option StatusCacheEntry) (now : Nat) (api : StatusApi) :
    StatusOutcome :=
  match api with
  | .ok d => ⟨⟨d.hasSalt, d.hasAnalyses, jsStrOrNull d.salt⟩, some ⟨d, now⟩, true⟩
  | .httpError => ⟨⟨false, false, none⟩, cache, true⟩
  | .netError =>
    match cache with
    | some entry => ⟨entry.data, cache, true⟩
    | none => ⟨⟨false, false, none⟩, cache, true⟩

/-- `getEncryptionStatus` (lines 193-254): no user gives the default; a cache
entry younger than the freshness window is returned without any remote call;
otherwise the remote leg runs. -/
def getEncryptionStatus (userSub : Option String) (cache : Option StatusCacheEntry)
    (now : Nat) (api : StatusApi) : StatusOutcome :=
  match userSub with
  | none => ⟨⟨false, false, none⟩, cache, false⟩
  | some _ =>
    match cache with
    | some entry =>
      if now - entry.timestamp < STATUS_CACHE_TTL_MS then
        ⟨entry.data, cache, false⟩
      else
        callStatusApi cache now api
    | none => callStatusApi cache now api

/-! ## Helper lemmas -/

/-- Is the lockout check at lines 432-439 blocking at time `now`? -/
def lockoutActive (st : SessionState) (now : Nat) : Bool :=
  match st.rl.lockedUntil with
  | some t => decide (now < t)
  | none => false

theorem unlock_no_block (uid p : String) (st : SessionState) (env : UnlockEnv)
    (h : lockoutActive st env.now = false) :
    unlockEncryption (some uid) p st env = unlockBody uid p st env := by
  unfold unlockEncryption
  unfold lockoutActive at h
  cases hl : st.rl.lockedUntil with
  | none => simp
  | some t =>
    rw [hl] at h
    simp only [decide_eq_false_iff_not] at h
    simp [h]

theorem unlockBody_split (uid p : String) (st : SessionState) (env : UnlockEnv) :
    (∃ e d f, unlockBody uid p st env = unlockFail env.now st e d f) ∨
    (∃ key saltB v f, unlockBody uid p st env = unlockSuccess st key saltB v f) := by
  cases hs : resolveSalt st env with
  | none =>
    refine .inl ⟨.saltNotFound, false, false, ?_⟩
    simp only [unlockBody, hs]
  | some s =>
    cases hv : st.vault with
    | some blob =>
      cases hl : localVerify uid blob (deriveKey p s) with
      | ok u =>
        refine .inr ⟨deriveKey p s, s, some blob, false, ?_⟩
        simp only [unlockBody, hs, hv, hl]
      | error e =>
        refine .inl ⟨e, true, false, ?_⟩
        simp only [unlockBody, hs, hv, hl]
    | none =>
      cases hr : remoteVerify uid (deriveKey p s) env with
      | ok nb =>
        refine .inr ⟨deriveKey p s, s, some nb, true, ?_⟩
        simp only [unlockBody, hs, hv, hr]
      | error re =>
        refine .inl ⟨remoteCatch re, true, true, ?_⟩
        simp only [unlockBody, hs, hv, hr]

theorem decryptAnalysisData_encryptAnalysisData (d : SensitivePlain)
    (k : MasterKey) (n : Nat) :
    decryptAnalysisData (encryptAnalysisData d k n) k = .ok d := by
  obtain ⟨ue, ic, ac, ml⟩ := d
  cases ac <;>
    · simp [encryptAnalysisData, decryptAnalysisData, authEncrypt, authDecrypt]
      rfl

theorem unlockFail_state_attempts (now : Nat) (st : SessionState) (e : InnerErr)
    (d f : Bool) :
    (unlockFail now st e d f).state.rl.attempts = st.rl.attempts + 1 := by
  unfold unlockFail
  split <;> rfl

theorem unlockFail_frame (now : Nat) (st : SessionState) (e : InnerErr) (d f : Bool) :
    (unlockFail now st e d f).state.encryptionKey = st.encryptionKey ∧
    (unlockFail now st e d f).state.isUnlocked = st.isUnlocked ∧
    (unlockFail now st e d f).state.vault = st.vault ∧
    (unlockFail now st e d f).state.isSetup = st.isSetup := by
  unfold unlockFail
  split <;> exact ⟨rfl, rfl, rfl, rfl⟩

theorem unlockFail_is_error (now : Nat) (st : SessionState) (e : InnerErr) (d f : Bool) :
    ∃ err, (unlockFail now st e d f).result = .error err := by
  unfold unlockFail
  split
  · exact ⟨_, rfl⟩
  · exact ⟨_, rfl⟩

theorem unlockFail_below_max (now : Nat) (st : SessionState) (e : InnerErr) (d f : Bool)
    (h : st.rl.attempts + 1 < MAX_UNLOCK_ATTEMPTS) :
    (unlockFail now st e d f).result =
      .error (.attemptFailed e (MAX_UNLOCK_ATTEMPTS - (st.rl.attempts + 1))) := by
  unfold unlockFail
  rw [if_neg (by omega)]

theorem unlockFail_at_max (now : Nat) (st : SessionState) (e : InnerErr) (d f : Bool)
    (h : MAX_UNLOCK_ATTEMPTS ≤ st.rl.attempts + 1) :
    (unlockFail now st e d f).result = .error (.lockedNow (st.rl.attempts + 1)) ∧
    (unlockFail now st e d f).state.rl =
      ⟨st.rl.attempts + 1, some (now + LOCKOUT_DURATION_MS)⟩ := by
  unfold unlockFail
  rw [if_pos h]
  exact ⟨rfl, rfl⟩

/-! ## Concrete sample inputs used by the witnesses -/

/-- A session currently locked out until time 10000. -/
def sampleLockedState : SessionState :=
  ⟨⟨5, some 10000⟩, some ⟨none, some 10000⟩, none, none, none, false, true⟩

/-- An environment whose clock is before the sample lockout expiry. -/
def sampleEnvEarly : UnlockEnv := ⟨7500, none, .ok, [], 0⟩

/-- A session with four failed attempts and no active lockout. -/
def sampleFourState : SessionState :=
  ⟨⟨4, none⟩, some ⟨some 4, none⟩, none, none, none, false, true⟩

/-- An environment in which no salt can be resolved, so any attempt fails. -/
def sampleEnvNoSalt : UnlockEnv := ⟨400000, none, .ok, [], 0⟩

/-- C1: while `lockedUntil` lies in the future, every call of
`unlockEncryption` — whatever the passphrase — fails with the locked-out error
carrying the remaining seconds, leaves the whole state (hence the
failed-attempt count) unchanged and never invokes key derivation; and any
failure that raises the attempt count to `MAX_UNLOCK_ATTEMPTS` sets
`lockedUntil` to now plus `LOCKOUT_DURATION_MS` (5 minutes). -/
theorem c1_lockout_gate_and_fifth_failure_locks :
    (∀ (uid p : String) (st : SessionState) (env : UnlockEnv) (t : Nat),
      st.rl.lockedUntil = some t → env.now < t →
      unlockEncryption (some uid) p st env =
        ⟨.error (.lockedOut ((t - env.now + 999) / 1000)), st, false, false⟩) ∧
    (∀ (uid p : String) (st : SessionState) (env : UnlockEnv) (err : UnlockError),
      st.rl.attempts = MAX_UNLOCK_ATTEMPTS - 1 → st.rl.lockedUntil = none →
      (unlockEncryption (some uid) p st env).result = .error err →
      (unlockEncryption (some uid) p st env).state.rl.attempts = MAX_UNLOCK_ATTEMPTS ∧
      (unlockEncryption (some uid) p st env).state.rl.lockedUntil =
        some (env.now + LOCKOUT_DURATION_MS)) := by
  constructor
  · intro uid p st env t h1 h2
    simp only [unlockEncryption, h1, if_pos h2]
  · intro uid p st env err h4 hnone hres
    have hb : unlockEncryption (some uid) p st env = unlockBody uid p st env := by
      apply unlock_no_block
      unfold lockoutActive
      rw [hnone]
    rcases unlockBody_split uid p st env with ⟨e, d, f, heq⟩ | ⟨k, sB, v, f, heq⟩
    · rw [hb, heq]
      have hmax : MAX_UNLOCK_ATTEMPTS ≤ st.rl.attempts + 1 := by
        rw [h4]
        simp [MAX_UNLOCK_ATTEMPTS]
      have hfa := unlockFail_at_max env.now st e d f hmax
      rw [hfa.2]
      refine ⟨?_, rfl⟩
      rw [h4]
      show MAX_UNLOCK_ATTEMPTS - 1 + 1 = MAX_UNLOCK_ATTEMPTS
      decide
    · rw [hb, heq] at hres
      exact absurd hres (by simp [unlockSuccess])

/-- Witness for C1: a locked-out call at time 7500 against a lockout expiring
at 10000 fails with 3 remaining seconds and changes nothing; a fifth failure at
time 400000 reaches the maximum and locks until 700000. -/
theorem c1_witness :
    (unlockEncryption (some "u1") "pw" sampleLockedState sampleEnvEarly =
      ⟨.error (.lockedOut 3), sampleLockedState, false, false⟩) ∧
    ((unlockEncryption (some "u1") "pw" sampleFourState sampleEnvNoSalt).state.rl.attempts =
        MAX_UNLOCK_ATTEMPTS ∧
     (unlockEncryption (some "u1") "pw" sampleFourState sampleEnvNoSalt).state.rl.lockedUntil =
        some (sampleEnvNoSalt.now + LOCKOUT_DURATION_MS)) := by
  constructor
  · exact c1_lockout_gate_and_fifth_failure_locks.1 "u1" "pw" sampleLockedState
      sampleEnvEarly 10000 rfl (by decide)
  · exact c1_lockout_gate_and_fifth_failure_locks.2 "u1" "pw" sampleFourState
      sampleEnvNoSalt (.lockedNow 5) rfl rfl rfl

/-- C2: an attempt that passes the lockout gate updates the failed-attempt
counter exactly once on failure — whichever step of salt resolution or
verification threw — and resets it exactly once on success; a wrong passphrase
against the local blob fails with the invalid-passphrase error carrying the
remaining attempts computed from the count at the point of failure, and leaves
the session locked with no in-memory key. -/
theorem c2_attempt_accounting_and_invalid_passphrase :
    (∀ (uid p : String) (st : SessionState) (env : UnlockEnv),
      lockoutActive st env.now = false →
      ((unlockEncryption (some uid) p st env).result = .ok () →
        (unlockEncryption (some uid) p st env).state.rl = ⟨0, none⟩) ∧
      (∀ err, (unlockEncryption (some uid) p st env).result = .error err →
        (unlockEncryption (some uid) p st env).state.rl.attempts =
          st.rl.attempts + 1)) ∧
    (∀ (uid p : String) (st : SessionState) (env : UnlockEnv)
        (blob : Enc KeyMaterialPayload) (salt : String),
      lockoutActive st env.now = false →
      st.vault = some blob →
      resolveSalt st env = some salt →
      blob.key ≠ deriveKey p salt →
      st.rl.attempts + 1 < MAX_UNLOCK_ATTEMPTS →
      st.encryptionKey = none → st.isUnlocked = false →
      (unlockEncryption (some uid) p st env).result =
        .error (.attemptFailed .invalidPassphrase
          (MAX_UNLOCK_ATTEMPTS - (st.rl.attempts + 1))) ∧
      (unlockEncryption (some uid) p st env).state.encryptionKey = none ∧
      (unlockEncryption (some uid) p st env).state.isUnlocked = false) := by
  constructor
  · intro uid p st env hna
    have hb := unlock_no_block uid p st env hna
    constructor
    · intro hok
      rcases unlockBody_split uid p st env with ⟨e, d, f, heq⟩ | ⟨k, sB, v, f, heq⟩
      · rw [hb, heq] at hok
        rcases unlockFail_is_error env.now st e d f with ⟨err, herr⟩
        rw [hok] at herr
        exact absurd herr (by simp)
      · rw [hb, heq]
        rfl
    · intro err herr
      rcases unlockBody_split uid p st env with ⟨e, d, f, heq⟩ | ⟨k, sB, v, f, heq⟩
      · rw [hb, heq]
        exact unlockFail_state_attempts env.now st e d f
      · rw [hb, heq] at herr
        exact absurd herr (by simp [unlockSuccess])
  · intro uid p st env blob salt hna hv hs hkey hlt hk hu
    have hb := unlock_no_block uid p st env hna
    have hlocal : localVerify uid blob (deriveKey p salt) = .error .invalidPassphrase := by
      unfold localVerify decryptKeyMaterial authDecrypt
      rw [if_neg hkey]
    have hbody : unlockBody uid p st env =
        unlockFail env.now st .invalidPassphrase true false := by
      simp only [unlockBody, hs, hv, hlocal]
    rw [hb, hbody]
    refine ⟨unlockFail_below_max env.now st _ true false hlt, ?_, ?_⟩
    · rw [(unlockFail_frame env.now st _ true false).1, hk]
    · rw [(unlockFail_frame env.now st _ true false).2.1, hu]

/-- A blob encrypted under the key derived from the correct passphrase. -/
def sampleBlob : Enc KeyMaterialPayload :=
  encryptKeyMaterial ⟨"u1"⟩ (deriveKey "correct horse" "SALT") 7

/-- A set-up, locked session with the sample blob in the vault and one prior
failed attempt. -/
def sampleVaultState : SessionState :=
  ⟨⟨1, none⟩, some ⟨some 1, none⟩, some sampleBlob, some "SALT", none, false, true⟩

/-- A plain environment with a working clock at time 50000. -/
def sampleEnvPlain : UnlockEnv := ⟨50000, none, .ok, [], 0⟩

/-- Witness for C2: at the sample vault state, a correct unlock resets the
counter to zero, and a wrong passphrase raises it to 2 and fails with the
invalid-passphrase error carrying 3 remaining attempts while the session stays
locked with no key. -/
theorem c2_witness :
    ((unlockEncryption (some "u1") "correct horse" sampleVaultState
        sampleEnvPlain).result = .ok () →
      (unlockEncryption (some "u1") "correct horse" sampleVaultState
        sampleEnvPlain).state.rl = ⟨0, none⟩) ∧
    ((unlockEncryption (some "u1") "wrong" sampleVaultState sampleEnvPlain).result =
      .error (.attemptFailed .invalidPassphrase 3) ∧
     (unlockEncryption (some "u1") "wrong" sampleVaultState
        sampleEnvPlain).state.encryptionKey = none ∧
     (unlockEncryption (some "u1") "wrong" sampleVaultState
        sampleEnvPlain).state.isUnlocked = false) := by
  constructor
  · exact (c2_attempt_accounting_and_invalid_passphrase.1 "u1" "correct horse"
      sampleVaultState sampleEnvPlain rfl).1
  · exact c2_attempt_accounting_and_invalid_passphrase.2 "u1" "wrong"
      sampleVaultState sampleEnvPlain sampleBlob "SALT" rfl rfl rfl
      (by decide) (by decide) rfl rfl

/-- The sample locked-out session after its lockout (set at attempts 5,
expiring at 1000000) has expired; the vault holds the sample blob. -/
def sampleExpiredState : SessionState :=
  ⟨⟨5, some 1000000⟩, some ⟨none, some 1000000⟩, some sampleBlob, some "SALT",
   none, false, true⟩

/-- An environment whose clock is past the sample lockout expiry. -/
def sampleEnvExpired : UnlockEnv := ⟨1400000, none, .ok, [], 0⟩

/-- C3 (failing input): with the lockout expired, the provider load path does
clear and persist the state (second conjunct, attempts load as 0 because the
lockout write stores no attempt count), and a correct unlock succeeds and
resets attempts to 0 (third conjunct); but on the unlock path a single wrong
attempt reads the stale captured count 5 — the reset scheduled at lines
442-444 is neither persisted nor visible to the failure accounting of the same
call — so it records attempts 6 and immediately re-enters lockout until
1700000, instead of recording attempts 1. -/
theorem c3_expired_lockout_stale_counter :
    1000000 ≤ sampleEnvExpired.now ∧
    loadRateLimit (some ⟨none, some 1000000⟩) sampleEnvExpired.now =
      (⟨0, none⟩, some ⟨some 0, none⟩) ∧
    ((unlockEncryption (some "u1") "correct horse" sampleExpiredState
        sampleEnvExpired).result = .ok () ∧
     (unlockEncryption (some "u1") "correct horse" sampleExpiredState
        sampleEnvExpired).state.rl = ⟨0, none⟩) ∧
    ((unlockEncryption (some "u1") "wrong" sampleExpiredState
        sampleEnvExpired).result = .error (.lockedNow 6) ∧
     (unlockEncryption (some "u1") "wrong" sampleExpiredState
        sampleEnvExpired).state.rl = ⟨6, some 1700000⟩) := by
  exact ⟨by decide, rfl, ⟨rfl, rfl⟩, ⟨rfl, rfl⟩⟩

/-- A set-up session on a new device: no local blob, salt cached, no failures. -/
def sampleNewDeviceState : SessionState :=
  ⟨⟨0, none⟩, none, none, some "SALT", none, false, true⟩

/-- An environment whose backend holds no analyses and answers the fetch. -/
def sampleEnvNoRecords : UnlockEnv := ⟨0, none, .ok, [], 0⟩

/-- C4 (failing input): on a new device with zero remote records the remote
verification branch does raise the cannot-verify error, but its message does
not contain the text the catch at lines 530-535 looks for, so the catch
replaces it with the generic verification failure: the caller sees
`attemptFailed failedToVerify` — the no-material-to-verify condition is not
surfaced.  The attempt is still never treated as success (the result is an
error). -/
theorem c4_cannot_verify_message_swallowed :
    remoteVerify "u1" (deriveKey "correct horse" "SALT") sampleEnvNoRecords =
      .error .cannotVerify ∧
    strIncludes (remoteVerifyErrMsg .cannotVerify) "Invalid passphrase" = false ∧
    remoteCatch .cannotVerify = .failedToVerify ∧
    (unlockEncryption (some "u1") "correct horse" sampleNewDeviceState
      sampleEnvNoRecords).result = .error (.attemptFailed .failedToVerify 4) := by
  exact ⟨rfl, rfl, rfl, rfl⟩

/-- C5: on a new device (no local blob) with at least one remote record, an
unlock whose candidate key decrypts every sensitive field of the fetched
record succeeds: at most one record is fetched, the session is unlocked with
the derived key in memory, a fresh verification blob for this user is
persisted in the vault, and that blob makes the local verification branch
succeed for the same key afterwards; and if AEAD fails on the record, the
attempt fails as a wrong passphrase. -/
theorem c5_new_device_unlock_with_record :
    (∀ (uid p : String) (st : SessionState) (env : UnlockEnv) (salt : String)
        (r : EncryptedAnalysis) (rest : List EncryptedAnalysis) (d : SensitivePlain),
      uid ≠ "" →
      lockoutActive st env.now = false →
      st.vault = none →
      resolveSalt st env = some salt →
      env.fetch = .ok →
      env.remoteAnalyses = r :: rest →
      decryptAnalysisData (sensitiveOf r) (deriveKey p salt) = .ok d →
      fetchedItems env = [r] ∧
      (unlockEncryption (some uid) p st env).result = .ok () ∧
      (unlockEncryption (some uid) p st env).state.encryptionKey =
        some (deriveKey p salt) ∧
      (unlockEncryption (some uid) p st env).state.isUnlocked = true ∧
      (unlockEncryption (some uid) p st env).state.vault =
        some (encryptKeyMaterial ⟨uid⟩ (deriveKey p salt) env.nonce) ∧
      (unlockEncryption (some uid) p st env).didFetch = true ∧
      localVerify uid (encryptKeyMaterial ⟨uid⟩ (deriveKey p salt) env.nonce)
        (deriveKey p salt) = .ok ()) ∧
    (∀ (uid p : String) (st : SessionState) (env : UnlockEnv) (salt : String)
        (r : EncryptedAnalysis) (rest : List EncryptedAnalysis),
      lockoutActive st env.now = false →
      st.vault = none →
      resolveSalt st env = some salt →
      env.fetch = .ok →
      env.remoteAnalyses = r :: rest →
      decryptAnalysisData (sensitiveOf r) (deriveKey p salt) = .error () →
      st.rl.attempts + 1 < MAX_UNLOCK_ATTEMPTS →
      (unlockEncryption (some uid) p st env).result =
        .error (.attemptFailed .invalidPassphrase
          (MAX_UNLOCK_ATTEMPTS - (st.rl.attempts + 1)))) := by
  constructor
  · intro uid p st env salt r rest d huid hna hv hs hfetch hitems hdec
    have hfi : fetchedItems env = [r] := by
      unfold fetchedItems
      rw [hitems]
      rfl
    have hrv : remoteVerify uid (deriveKey p salt) env =
        .ok (encryptKeyMaterial ⟨uid⟩ (deriveKey p salt) env.nonce) := by
      simp only [remoteVerify, hfetch, hfi, hdec]
    have hbody : unlockBody uid p st env =
        unlockSuccess st (deriveKey p salt) salt
          (some (encryptKeyMaterial ⟨uid⟩ (deriveKey p salt) env.nonce)) true := by
      simp only [unlockBody, hs, hv, hrv]
    rw [unlock_no_block uid p st env hna, hbody]
    refine ⟨hfi, rfl, rfl, rfl, rfl, rfl, ?_⟩
    simp [localVerify, decryptKeyMaterial, encryptKeyMaterial, authDecrypt,
      authEncrypt, huid]
  · intro uid p st env salt r rest hna hv hs hfetch hitems hdec hlt
    have hfi : fetchedItems env = [r] := by
      unfold fetchedItems
      rw [hitems]
      rfl
    have hrv : remoteVerify uid (deriveKey p salt) env = .error .invalidPassphrase := by
      simp only [remoteVerify, hfetch, hfi, hdec]
    have hbody : unlockBody uid p st env =
        unlockFail env.now st (remoteCatch .invalidPassphrase) true true := by
      simp only [unlockBody, hs, hv, hrv]
    have hcatch : remoteCatch .invalidPassphrase = .invalidPassphrase := rfl
    rw [unlock_no_block uid p st env hna, hbody, hcatch]
    exact unlockFail_below_max env.now st _ true true hlt

/-- The key derived from the sample passphrase and salt. -/
def sampleKey : MasterKey := deriveKey "correct horse" "SALT"

/-- A remote record whose sensitive fields are all encrypted under the sample
key. -/
def sampleRecord : EncryptedAnalysis :=
  ⟨"rec1", "u1", authEncrypt "a@b.com" sampleKey 1, "eml",
   authEncrypt "From: x" sampleKey 2, some (authEncrypt "ctx" sampleKey 3),
   authEncrypt ⟨true, (92 : Rat) / 100⟩ sampleKey 4, "t0", "t1"⟩

/-- An environment whose backend holds exactly the sample record. -/
def sampleEnvOneRecord : UnlockEnv := ⟨50000, some "SALT", .ok, [sampleRecord], 9⟩

/-- A fresh new-device session: no blob, no cached salt, no failures. -/
def sampleFreshState : SessionState := ⟨⟨0, none⟩, none, none, none, none, false, true⟩

/-- Witness for C5: the concrete new-device unlock against the sample record
succeeds, stores the key and a blob reusable by the local branch. -/
theorem c5_witness :
    fetchedItems sampleEnvOneRecord = [sampleRecord] ∧
    (unlockEncryption (some "u1") "correct horse" sampleFreshState
      sampleEnvOneRecord).result = .ok () ∧
    (unlockEncryption (some "u1") "correct horse" sampleFreshState
      sampleEnvOneRecord).state.encryptionKey =
        some (deriveKey "correct horse" "SALT") ∧
    (unlockEncryption (some "u1") "correct horse" sampleFreshState
      sampleEnvOneRecord).state.isUnlocked = true ∧
    (unlockEncryption (some "u1") "correct horse" sampleFreshState
      sampleEnvOneRecord).state.vault =
        some (encryptKeyMaterial ⟨"u1"⟩ (deriveKey "correct horse" "SALT")
          sampleEnvOneRecord.nonce) ∧
    (unlockEncryption (some "u1") "correct horse" sampleFreshState
      sampleEnvOneRecord).didFetch = true ∧
    localVerify "u1" (encryptKeyMaterial ⟨"u1"⟩ (deriveKey "correct horse" "SALT")
      sampleEnvOneRecord.nonce) (deriveKey "correct horse" "SALT") = .ok () := by
  exact c5_new_device_unlock_with_record.1 "u1" "correct horse" sampleFreshState
    sampleEnvOneRecord "SALT" sampleRecord []
    ⟨"a@b.com", "From: x", some "ctx", ⟨true, (92 : Rat) / 100⟩⟩
    (by decide) rfl rfl rfl rfl rfl rfl

/-- A full record packed into the `Partial<Analysis>` argument of
`encryptData`. -/
def toPartial (a : Analysis) : PartialAnalysis :=
  ⟨some a.id, some a.userSub, some a.userEmail, some a.inputType,
   some a.inputContent, a.analysisContext, some a.mlResult,
   some a.createdAt, some a.updatedAt⟩

/-- The sensitive fields of a record encrypted under `k`, as `encryptData`
produces them. -/
def encFields (a : Analysis) (k : MasterKey) (n : Nat) : SensitiveEnc :=
  encryptAnalysisData ⟨a.userEmail, a.inputContent, a.analysisContext, a.mlResult⟩ k n

/-- The value `encryptData` returns on a full record. -/
def toPartialEnc (a : Analysis) (k : MasterKey) (n : Nat) : PartialEncryptedAnalysis :=
  ⟨some a.id, some a.userSub, (encFields a k n).userEmail, some a.inputType,
   (encFields a k n).inputContent, (encFields a k n).analysisContext,
   (encFields a k n).mlResult, some a.createdAt, some a.updatedAt⟩

/-- The full encrypted record assembled from `encryptData` output. -/
def encFull (a : Analysis) (k : MasterKey) (n : Nat) : EncryptedAnalysis :=
  ⟨a.id, a.userSub, (encFields a k n).userEmail, a.inputType,
   (encFields a k n).inputContent, (encFields a k n).analysisContext,
   (encFields a k n).mlResult, a.createdAt, a.updatedAt⟩

/-- C6: for every record carrying all four sensitive fields and every key,
`decryptData` after `encryptData` under the same key returns the record
unchanged — the sensitive fields equal the originals and the clear fields
`id`, `userSub`, `inputType`, `createdAt`, `updatedAt` are passed through —
while decryption under a key derived from a different passphrase fails for
every sensitive field. -/
theorem c6_encrypt_decrypt_roundtrip :
    ∀ (a : Analysis) (k : MasterKey) (n : Nat) (cx : String),
      a.analysisContext = some cx → a.userEmail ≠ "" → a.inputContent ≠ "" →
      (encryptData (some k) (toPartial a) n = .ok (toPartialEnc a k n) ∧
       toFullEncrypted (toPartialEnc a k n) = some (encFull a k n) ∧
       decryptData (some k) (encFull a k n) = .ok a) ∧
      (∀ p2, p2 ≠ k.passphrase →
        authDecrypt (encFull a k n).userEmail (deriveKey p2 k.salt) = .error () ∧
        authDecrypt (encFull a k n).inputContent (deriveKey p2 k.salt) = .error () ∧
        authDecrypt (encFull a k n).mlResult (deriveKey p2 k.salt) = .error () ∧
        ∀ c, (encFull a k n).analysisContext = some c →
          authDecrypt c (deriveKey p2 k.salt) = .error ()) := by
  intro a k n cx hcx he hi
  obtain ⟨aid, aus, aue, ait, aic, aac, aml, aca, aua⟩ := a
  obtain ⟨kp, ks⟩ := k
  simp only at hcx he hi
  subst hcx
  constructor
  · refine ⟨?_, ?_, ?_⟩
    · simp [encryptData, toPartial, strFalsy, he, hi, toPartialEnc, encFields,
        encryptAnalysisData, authEncrypt]
    · rfl
    · have hd := decryptAnalysisData_encryptAnalysisData
        ⟨aue, aic, some cx, aml⟩ ⟨kp, ks⟩ n
      simp [decryptData, encFull, encFields, sensitiveOf, hd]
  · intro p2 hp2
    have hkne : (⟨kp, ks⟩ : MasterKey) ≠ deriveKey p2 ks := by
      simp only [deriveKey, ne_eq, MasterKey.mk.injEq, not_and]
      intro h
      exact absurd h.symm hp2
    refine ⟨?_, ?_, ?_, ?_⟩
    · simp [encFull, encFields, encryptAnalysisData, authEncrypt, authDecrypt, hkne]
    · simp [encFull, encFields, encryptAnalysisData, authEncrypt, authDecrypt, hkne]
    · simp [encFull, encFields, encryptAnalysisData, authEncrypt, authDecrypt, hkne]
    · intro c hc
      have hc2 : c = ⟨n + 2, ⟨kp, ks⟩, cx⟩ := by
        simpa [encFull, encFields, encryptAnalysisData, authEncrypt] using hc.symm
      subst hc2
      simp [authDecrypt, hkne]

/-- The sample full record of the spec scenario (§8). -/
def sampleAnalysis : Analysis :=
  ⟨"id1", "u1", "a@b.com", "eml", "From: x", some "ctx",
   ⟨true, (92 : Rat) / 100⟩, "t0", "t1"⟩

/-- The key of the spec scenario (§8). -/
def scenarioKey : MasterKey := deriveKey "Tr0ub4dor&3xtra!" "S"

/-- Witness for C6: the spec scenario record round-trips under the scenario
key, and decryption under the key derived from a wrong passphrase fails on
every sensitive field. -/
theorem c6_witness :
    (encryptData (some scenarioKey) (toPartial sampleAnalysis) 0 =
      .ok (toPartialEnc sampleAnalysis scenarioKey 0) ∧
     toFullEncrypted (toPartialEnc sampleAnalysis scenarioKey 0) =
      some (encFull sampleAnalysis scenarioKey 0) ∧
     decryptData (some scenarioKey) (encFull sampleAnalysis scenarioKey 0) =
      .ok sampleAnalysis) ∧
    (authDecrypt (encFull sampleAnalysis scenarioKey 0).userEmail
        (deriveKey "wrongpass" scenarioKey.salt) = .error () ∧
     authDecrypt (encFull sampleAnalysis scenarioKey 0).inputContent
        (deriveKey "wrongpass" scenarioKey.salt) = .error () ∧
     authDecrypt (encFull sampleAnalysis scenarioKey 0).mlResult
        (deriveKey "wrongpass" scenarioKey.salt) = .error () ∧
     authDecrypt (authEncrypt "ctx" scenarioKey 2)
        (deriveKey "wrongpass" scenarioKey.salt) = .error ()) := by
  have h := c6_encrypt_decrypt_roundtrip sampleAnalysis scenarioKey 0 "ctx"
    rfl (by decide) (by decide)
  refine ⟨h.1, ?_⟩
  have h2 := h.2 "wrongpass" (by decide)
  exact ⟨h2.1, h2.2.1, h2.2.2.1, h2.2.2.2 (authEncrypt "ctx" scenarioKey 2) rfl⟩

/-- C7: `lockEncryption` from an unlocked session clears the in-memory key,
marks the session locked and clears the local verification blob, while the
cached salt and the setup flag are unchanged. -/
theorem c7_lock_clears_key_keeps_salt :
    ∀ (uid : String) (st : SessionState),
      st.isUnlocked = true →
      (lockEncryption (some uid) st).encryptionKey = none ∧
      (lockEncryption (some uid) st).isUnlocked = false ∧
      (lockEncryption (some uid) st).vault = none ∧
      (lockEncryption (some uid) st).userSalt = st.userSalt ∧
      (lockEncryption (some uid) st).isSetup = st.isSetup := by
  intro uid st h
  exact ⟨rfl, rfl, rfl, rfl, rfl⟩

/-- An unlocked session holding the sample key and blob. -/
def sampleUnlockedState : SessionState :=
  ⟨⟨0, none⟩, none, some sampleBlob, some "SALT", some sampleKey, true, true⟩

/-- Witness for C7: locking the sample unlocked session. -/
theorem c7_witness :
    (lockEncryption (some "u1") sampleUnlockedState).encryptionKey = none ∧
    (lockEncryption (some "u1") sampleUnlockedState).isUnlocked = false ∧
    (lockEncryption (some "u1") sampleUnlockedState).vault = none ∧
    (lockEncryption (some "u1") sampleUnlockedState).userSalt =
      sampleUnlockedState.userSalt ∧
    (lockEncryption (some "u1") sampleUnlockedState).isSetup =
      sampleUnlockedState.isSetup := by
  exact c7_lock_clears_key_keeps_salt "u1" sampleUnlockedState rfl

/-- A stale cached status entry written at time 0 with data present. -/
def staleCacheEntry : StatusCacheEntry := ⟨⟨true, true, some "S"⟩, 0⟩

/-- C8 (counterexample): with a stale cache entry present, a remote call that
completes with a non-OK HTTP status does not fall back to the cached data —
only a thrown failure does — so the call returns the all-false default instead
of the cache. -/
theorem c8_counterexample_http_error_ignores_cache :
    (getEncryptionStatus (some "u1") (some staleCacheEntry) 400000 .httpError).result =
      ⟨false, false, none⟩ ∧
    staleCacheEntry.data = ⟨true, true, some "S"⟩ ∧
    (getEncryptionStatus (some "u1") (some staleCacheEntry) 400000 .httpError).result ≠
      staleCacheEntry.data := by
  exact ⟨rfl, rfl, by decide⟩

/-- C8 (amended): a cache entry younger than 5 minutes is returned without a
remote call; an absent or stale entry triggers the remote call whose ok result
is normalized, cached and returned; a remote call that throws while a cached
entry exists returns the cached data; but a completed non-OK HTTP response
returns the all-false default and leaves the cache untouched. -/
theorem c8_status_cache_behaviour :
    (∀ (u : String) (e : StatusCacheEntry) (now : Nat) (api : StatusApi),
      now - e.timestamp < STATUS_CACHE_TTL_MS →
      getEncryptionStatus (some u) (some e) now api = ⟨e.data, some e, false⟩) ∧
    (∀ (u : String) (now : Nat) (d : StatusData),
      getEncryptionStatus (some u) none now (.ok d) =
        ⟨⟨d.hasSalt, d.hasAnalyses, jsStrOrNull d.salt⟩, some ⟨d, now⟩, true⟩) ∧
    (∀ (u : String) (e : StatusCacheEntry) (now : Nat) (d : StatusData),
      ¬ now - e.timestamp < STATUS_CACHE_TTL_MS →
      getEncryptionStatus (some u) (some e) now (.ok d) =
        ⟨⟨d.hasSalt, d.hasAnalyses, jsStrOrNull d.salt⟩, some ⟨d, now⟩, true⟩) ∧
    (∀ (u : String) (e : StatusCacheEntry) (now : Nat),
      ¬ now - e.timestamp < STATUS_CACHE_TTL_MS →
      getEncryptionStatus (some u) (some e) now .netError =
        ⟨e.data, some e, true⟩) ∧
    (∀ (u : String) (e : StatusCacheEntry) (now : Nat),
      ¬ now - e.timestamp < STATUS_CACHE_TTL_MS →
      getEncryptionStatus (some u) (some e) now .httpError =
        ⟨⟨false, false, none⟩, some e, true⟩) := by
  refine ⟨?_, ?_, ?_, ?_, ?_⟩
  · intro u e now api h
    simp [getEncryptionStatus, h]
  · intro u now d
    simp [getEncryptionStatus, callStatusApi]
  · intro u e now d h
    simp [getEncryptionStatus, callStatusApi, h]
  · intro u e now h
    simp [getEncryptionStatus, callStatusApi, h]
  · intro u e now h
    simp [getEncryptionStatus, callStatusApi, h]

/-- Witness for C8: at concrete inputs — a fresh hit at time 100, a miss at
time 400000 caching the response, and a thrown remote failure at time 400000
returning the stale cached data. -/
theorem c8_witness :
    getEncryptionStatus (some "u1") (some staleCacheEntry) 100 .httpError =
      ⟨staleCacheEntry.data, some staleCacheEntry, false⟩ ∧
    getEncryptionStatus (some "u1") none 400000 (.ok ⟨true, false, some "S2"⟩) =
      ⟨⟨true, false, some "S2"⟩, some ⟨⟨true, false, some "S2"⟩, 400000⟩, true⟩ ∧
    getEncryptionStatus (some "u1") (some staleCacheEntry) 400000 .netError =
      ⟨staleCacheEntry.data, some staleCacheEntry, true⟩ := by
  refine ⟨?_, ?_, ?_⟩
  · exact c8_status_cache_behaviour.1 "u1" staleCacheEntry 100 .httpError (by decide)
  · exact c8_status_cache_behaviour.2.1 "u1" 400000 ⟨true, false, some "S2"⟩
  · exact c8_status_cache_behaviour.2.2.2.1 "u1" staleCacheEntry 400000 (by decide)

/-- C9: setup writes the verification blob to the local vault before the salt
reaches the backend (effect order), and when the backend salt save fails the
call throws, the session still reports not set up, locked and keyless, the
backend salt is unchanged — and the already-written local blob is not rolled
back. -/
theorem c9_setup_blob_before_salt :
    ∀ (uid p salt : String) (st : SessionState) (n : Nat)
      (backendSalt : Option String),
      st.isSetup = false → st.isUnlocked = false → st.encryptionKey = none →
      ((setupEncryption (some uid) p st salt n true backendSalt).effects =
          [.vaultPut, .remoteSaltSave] ∧
       (setupEncryption (some uid) p st salt n true backendSalt).result = .ok ()) ∧
      ((setupEncryption (some uid) p st salt n false backendSalt).effects =
          [.vaultPut, .remoteSaltSave] ∧
       (setupEncryption (some uid) p st salt n false backendSalt).result =
          .error .saltSaveFailed ∧
       (setupEncryption (some uid) p st salt n false backendSalt).state.isSetup =
          false ∧
       (setupEncryption (some uid) p st salt n false backendSalt).state.isUnlocked =
          false ∧
       (setupEncryption (some uid) p st salt n false backendSalt).state.encryptionKey =
          none ∧
       (setupEncryption (some uid) p st salt n false backendSalt).state.vault =
          some (encryptKeyMaterial ⟨uid⟩ (deriveKey p salt) n) ∧
       (setupEncryption (some uid) p st salt n false backendSalt).backendSalt =
          backendSalt) := by
  intro uid p salt st n backendSalt h1 h2 h3
  refine ⟨⟨rfl, rfl⟩, rfl, rfl, ?_, ?_, ?_, rfl, rfl⟩
  · exact h1
  · exact h2
  · exact h3

/-- A session before any setup: nothing cached, nothing stored. -/
def sampleNotSetupState : SessionState := ⟨⟨0, none⟩, none, none, none, none, false, false⟩

/-- Witness for C9: the concrete setup call with a failing backend salt save
leaves the blob in the vault and the session not set up. -/
theorem c9_witness :
    ((setupEncryption (some "u1") "pw" sampleNotSetupState "SALT" 3 true none).effects =
        [.vaultPut, .remoteSaltSave] ∧
     (setupEncryption (some "u1") "pw" sampleNotSetupState "SALT" 3 true none).result =
        .ok ()) ∧
    ((setupEncryption (some "u1") "pw" sampleNotSetupState "SALT" 3 false none).effects =
        [.vaultPut, .remoteSaltSave] ∧
     (setupEncryption (some "u1") "pw" sampleNotSetupState "SALT" 3 false none).result =
        .error .saltSaveFailed ∧
     (setupEncryption (some "u1") "pw" sampleNotSetupState "SALT" 3 false none).state.isSetup =
        false ∧
     (setupEncryption (some "u1") "pw" sampleNotSetupState "SALT" 3 false none).state.isUnlocked =
        false ∧
     (setupEncryption (some "u1") "pw" sampleNotSetupState "SALT" 3 false none).state.encryptionKey =
        none ∧
     (setupEncryption (some "u1") "pw" sampleNotSetupState "SALT" 3 false none).state.vault =
        some (encryptKeyMaterial ⟨"u1"⟩ (deriveKey "pw" "SALT") 3) ∧
     (setupEncryption (some "u1") "pw" sampleNotSetupState "SALT" 3 false none).backendSalt =
        none) := by
  exact c9_setup_blob_before_salt "u1" "pw" "SALT" sampleNotSetupState 3 none rfl rfl rfl

/-- A record whose `userEmail` is present but the empty string, with the other
required fields valid. -/
def sampleEmptyEmailData : PartialAnalysis :=
  ⟨none, none, some "", none, some "body", none, some ⟨true, (1 : Rat) / 2⟩, none, none⟩

/-- C10 (counterexample): `encryptData` rejects a record whose `userEmail` is
present but empty — the JavaScript truthiness check at line 680 treats the
empty string like an absent field — so the missing-fields error is not thrown
exactly on absence. -/
theorem c10_counterexample_empty_string_rejected :
    encryptData (some sampleKey) sampleEmptyEmailData 0 = .error .missingFields ∧
    sampleEmptyEmailData.userEmail = some "" ∧
    sampleEmptyEmailData.userEmail ≠ none ∧
    sampleEmptyEmailData.inputContent ≠ none ∧
    sampleEmptyEmailData.mlResult ≠ none := by
  refine ⟨rfl, rfl, by decide, by decide, ?_⟩
  simp [sampleEmptyEmailData]

/-- C10 (amended): `encryptData` under a key throws the missing-fields error
exactly when `userEmail` or `inputContent` is absent or empty, or `mlResult`
is absent; a record lacking only `analysisContext` is accepted and encrypted. -/
theorem c10_required_fields :
    (∀ (k : MasterKey) (data : PartialAnalysis) (n : Nat),
      encryptData (some k) data n = .error .missingFields ↔
        (strFalsy data.userEmail = true ∨ strFalsy data.inputContent = true ∨
         data.mlResult = none)) ∧
    (∀ (k : MasterKey) (n : Nat) (data : PartialAnalysis) (ue ic : String)
        (ml : MLResult),
      data.userEmail = some ue → ue ≠ "" →
      data.inputContent = some ic → ic ≠ "" →
      data.mlResult = some ml →
      data.analysisContext = none →
      encryptData (some k) data n =
        .ok ⟨data.id, data.userSub, authEncrypt ue k n, data.inputType,
             authEncrypt ic k (n + 1), none, authEncrypt ml k (n + 3),
             data.createdAt, data.updatedAt⟩) := by
  constructor
  · intro k data n
    obtain ⟨di, du, dE, dt, dC, dx, dM, dc, dup⟩ := data
    rcases dE with _ | ue <;> rcases dC with _ | ic <;> rcases dM with _ | ml <;>
      simp [encryptData, strFalsy] <;>
      by_cases hu : ue = "" <;> by_cases hc : ic = "" <;>
        simp [hu, hc, encryptAnalysisData]
  · intro k n data ue ic ml h1 h2 h3 h4 h5 h6
    obtain ⟨di, du, dE, dt, dC, dx, dM, dc, dup⟩ := data
    simp only at h1 h3 h5 h6
    subst h1; subst h3; subst h5; subst h6
    simp [encryptData, strFalsy, h2, h4, encryptAnalysisData]

/-- A valid record with no `analysisContext`. -/
def sampleValidNoCtx : PartialAnalysis :=
  ⟨some "id1", some "u1", some "a@b.com", some "eml", some "body", none,
   some ⟨true, (1 : Rat) / 2⟩, some "t0", some "t1"⟩

/-- Witness for C10 (amended): the concrete record without `analysisContext`
is accepted and encrypted, and the missing-fields equivalence holds on it. -/
theorem c10_witness :
    (encryptData (some sampleKey) sampleValidNoCtx 0 = .error .missingFields ↔
      (strFalsy sampleValidNoCtx.userEmail = true ∨
       strFalsy sampleValidNoCtx.inputContent = true ∨
       sampleValidNoCtx.mlResult = none)) ∧
    encryptData (some sampleKey) sampleValidNoCtx 0 =
      .ok ⟨some "id1", some "u1", authEncrypt "a@b.com" sampleKey 0, some "eml",
           authEncrypt "body" sampleKey 1, none,
           authEncrypt ⟨true, (1 : Rat) / 2⟩ sampleKey 3, some "t0", some "t1"⟩ := by
  constructor
  · exact c10_required_fields.1 sampleKey sampleValidNoCtx 0
  · exact c10_required_fields.2 sampleKey 0 sampleValidNoCtx "a@b.com" "body"
      ⟨true, (1 : Rat) / 2⟩ rfl (by decide) rfl (by decide) rfl rfl

end SecureBeacon
